import Mathlib

/-!
# pmacros.h: compile-time platform and toolchain resolution

A shallow embedding of the conditional-compilation logic of `src/pmacros.h`.

The C preprocessor reads a set of predefined identity tokens and, block by
block, decides which `P_*` macros get defined.  Here the predefined tokens are
a record (`Tokens`), the set of macros a block defines is a list of macro names
(`Macro`), and `defined` is membership in that list.  Every `#if`/`#elif`/`#else`
chain of the header is one function whose `if`/`else if`/`else` follows the chain
line by line.

The `P_*` names are not identity tokens: none of them is defined when the header
is entered.  The version tokens `__GNUC__` and `__GNUC_MINOR__`, when defined,
expand to a decimal integer constant, as compilers define them; the `#if` of
line 114 reads that constant in the preprocessor's 64-bit arithmetic (`ppRead`).

The two cast macros of lines 142-145 are embedded as integer functions over a
data model that fixes the widths of `long` and `void *`.
-/

namespace PMacros

/-! ## Predefined identity tokens -/

/-- The predefined tokens tested by `pmacros.h`.  A `Bool` field says whether the
token is defined (the header only applies `defined`/`#ifdef` to it).  The two
version tokens are also read for their value in an `#if` expression, so they
carry the integer they expand to when defined. -/
structure Tokens where
  __PLIB_H_INSIDE__ : Bool
  PLIB_COMPILATION : Bool
  __PMACROS_H__ : Bool
  __APPLE__ : Bool
  __GNUC__ : Option Int
  __GNUC_MINOR__ : Option Int
  __xlC__ : Bool
  __xlc__ : Bool
  __LP64__ : Bool
  _WIN64 : Bool
  _M_X64 : Bool
  _M_AMD64 : Bool
  __WIN32__ : Bool
  _WIN32 : Bool
  WIN32 : Bool
  __linux : Bool
  __linux__ : Bool
  __sun : Bool
  sun : Bool
  __QNXNTO__ : Bool
  __QNX__ : Bool
  _MSC_VER : Bool
  __INTEL_COMPILER : Bool
  __MINGW32__ : Bool
  __clang__ : Bool
  __SUNPRO_C : Bool
  __WATCOMC__ : Bool
  __cplusplus : Bool
  deriving DecidableEq, Repr

/-- The object-like tag macros the header may define (those without a
replacement text that matters: they are only ever tested with `defined`). -/
inductive Macro where
  | P_OS_DARWIN | P_OS_BSD4 | P_OS_DARWIN64 | P_OS_DARWIN32
  | P_OS_WIN64 | P_OS_WIN | P_OS_LINUX | P_OS_SOLARIS | P_OS_QNX6 | P_OS_QNX
  | P_OS_MAC | P_OS_MAC64 | P_OS_MAC32
  | P_CC_MSVC | P_CC_GNU | P_CC_MINGW | P_CC_INTEL | P_CC_CLANG
  | P_CC_SUN | P_CC_WATCOM
  deriving DecidableEq, Repr

open Macro

/-- The preprocessor operator `defined(m)` against the macros defined so far. -/
def defined (m : Macro) (env : List Macro) : Bool := env.contains m

/-- The integer constants every preprocessor reads as themselves: those of
magnitude below `2^63`, which fit the 64-bit `intmax_t` that `#if` arithmetic
is done in, written as a decimal constant with an optional minus sign. -/
def fitsIntmax (v : Int) : Bool :=
  decide (-(2 : Int) ^ 63 < v) && decide (v < (2 : Int) ^ 63)

/-- How an `#if` expression reads a token that expands to the decimal constant
`v` (with an optional minus sign).  `#if` arithmetic is done in the 64-bit types
`intmax_t` and `uintmax_t`:
* a constant of magnitude below `2^63` fits `intmax_t` and is read as itself;
* one of magnitude from `2^63` up to `2^64 - 1` is too large to be signed and is
  read as unsigned, a minus sign negating it modulo `2^64`;
* one of magnitude `2^64` or more does not fit any type, and its low 64 bits are
  kept and read as signed.
The result is the number the comparisons of the expression see; an unsigned
operand is compared with the small constants `3` and `4` as that same number.
Outside the first case the C standard promises nothing (the constant violates a
constraint); the two other cases follow what GCC does after its warning. -/
def ppRead (v : Int) : Int :=
  if v.natAbs < 2 ^ 63 then v
  else if v.natAbs < 2 ^ 64 then v % (2 : Int) ^ 64
  else (v + (2 : Int) ^ 63) % (2 : Int) ^ 64 - (2 : Int) ^ 63

/-- Value of an identifier inside an `#if` expression: its integer expansion, as
the preprocessor reads it, when it is a macro, `0` when it is not defined. -/
def ppValue (tok : Option Int) : Int :=
  match tok with
  | none => 0
  | some v => ppRead v

/-! ## Operating systems (lines 37-77) -/

/-- Line 39: the Darwin/BSD4 condition. -/
def darwinCond (t : Tokens) : Bool :=
  t.__APPLE__ && (t.__GNUC__.isSome || t.__xlC__ || t.__xlc__)

/-- Line 48: the 64-bit Windows condition. -/
def win64Cond (t : Tokens) : Bool := t._WIN64 || t._M_X64 || t._M_AMD64

/-- Line 50: the generic Windows condition. -/
def winCond (t : Tokens) : Bool := t.__WIN32__ || t._WIN32 || t.WIN32

/-- Line 53: the Linux condition. -/
def linuxCond (t : Tokens) : Bool := t.__linux || t.__linux__

/-- Line 56: the Solaris condition. -/
def solarisCond (t : Tokens) : Bool := t.__sun || t.sun

/-- Line 59: the QNX6 condition. -/
def qnx6Cond (t : Tokens) : Bool := t.__QNXNTO__

/-- Line 62: the QNX condition. -/
def qnxCond (t : Tokens) : Bool := t.__QNX__

/-- Lines 39-64: the `#if`/`#elif` chain of OS tags; the result lists the macros
the selected branch defines, in the order of their `#define` lines. -/
def osChain (t : Tokens) : List Macro :=
  if darwinCond t then
    [P_OS_DARWIN, P_OS_BSD4] ++ (if t.__LP64__ then [P_OS_DARWIN64] else [P_OS_DARWIN32])
  else if win64Cond t then [P_OS_WIN64]
  else if winCond t then [P_OS_WIN]
  else if linuxCond t then [P_OS_LINUX]
  else if solarisCond t then [P_OS_SOLARIS]
  else if qnx6Cond t then [P_OS_QNX6]
  else if qnxCond t then [P_OS_QNX]
  else []

/-- Lines 66-68: `#ifdef P_OS_WIN64` adds `P_OS_WIN`. -/
def win64Block (env : List Macro) : List Macro :=
  if defined P_OS_WIN64 env then env ++ [P_OS_WIN] else env

/-- Lines 70-77: the `P_OS_MAC*` aliases of the Darwin tags. -/
def macBlock (env : List Macro) : List Macro :=
  if defined P_OS_DARWIN env then
    env ++ [P_OS_MAC] ++
      (if defined P_OS_DARWIN64 env then [P_OS_MAC64]
       else if defined P_OS_DARWIN32 env then [P_OS_MAC32]
       else [])
  else env

/-- Lines 37-68: the OS tags defined once the detection chain and the
`P_OS_WIN64` block have been processed. -/
def osTags (t : Tokens) : List Macro := win64Block (osChain t)

/-- Lines 37-77: all OS macros, the `P_OS_MAC*` aliases included. -/
def osMacros (t : Tokens) : List Macro := macBlock (osTags t)

/-! ## Compilers (lines 79-108) -/

/-- Lines 82-108: the `#if`/`#elif` chain of compiler tags.  Each branch defines
its vendor tag first and then, for the first two branches, the tags of the
nested `#if` blocks, in source order. -/
def ccChain (t : Tokens) : List Macro :=
  if t._MSC_VER then
    [P_CC_MSVC] ++ (if t.__INTEL_COMPILER then [P_CC_INTEL] else [])
  else if t.__GNUC__.isSome then
    [P_CC_GNU] ++ (if t.__MINGW32__ then [P_CC_MINGW] else [])
      ++ (if t.__INTEL_COMPILER then [P_CC_INTEL] else [])
      ++ (if t.__clang__ then [P_CC_CLANG] else [])
  else if t.__SUNPRO_C then [P_CC_SUN]
  else if t.__WATCOMC__ then [P_CC_WATCOM]
  else if t.__INTEL_COMPILER then [P_CC_INTEL]
  else []

/-! ## Derived primitives (lines 110-159, 197-203) -/

/-- Line 114: the controlling expression of the unused-result gate, evaluated as
the preprocessor does: an identifier that is not a macro reads as `0`, a version
token reads as `ppRead` of the constant it expands to (64-bit arithmetic). -/
def warnUnusedCond (t : Tokens) : Bool :=
  decide (ppValue t.__GNUC__ > 3) ||
    (decide (ppValue t.__GNUC__ = 3) && decide (ppValue t.__GNUC_MINOR__ ≥ 4))

/-- Lines 114-118: replacement text of `P_GNUC_WARN_UNUSED_RESULT`. -/
def P_GNUC_WARN_UNUSED_RESULT (t : Tokens) : String :=
  if warnUnusedCond t then "__attribute__((warn_unused_result))" else ""

/-- Lines 124-128: replacement text of `P_LIB_API`. -/
def P_LIB_API (env : List Macro) : String :=
  if defined P_CC_MSVC env then "__declspec(dllexport)" else ""

/-- Lines 134-140: replacement text of `P_NO_RETURN`. -/
def P_NO_RETURN (env : List Macro) : String :=
  if defined P_CC_MSVC env then "__declspec(noreturn)"
  else if defined P_CC_GNU env then "__attribute__((noreturn))"
  else ""

/-- Lines 151-159: replacement text of `P_STRTOK(str, delim, buf)`. -/
def P_STRTOK (env : List Macro) : String :=
  if defined P_OS_WIN env then
    if defined P_CC_MINGW env then "strtok(str, delim)"
    else "strtok_s(str, delim, buf)"
  else "strtok_r(str, delim, buf)"

/-- Lines 197-203: replacement text of `P_BEGIN_DECLS`. -/
def P_BEGIN_DECLS (t : Tokens) : String :=
  if t.__cplusplus then "extern \"C\" \x7b" else ""

/-- Lines 197-203: replacement text of `P_END_DECLS`. -/
def P_END_DECLS (t : Tokens) : String :=
  if t.__cplusplus then "\x7d" else ""

/-! ## The header as a whole -/

/-- What one processing of the header leaves behind: the tag macros defined and
the replacement text of each conditionally defined primitive. -/
structure Resolved where
  tags : List Macro
  warnUnusedResult : String
  libApi : String
  noReturn : String
  strtok : String
  beginDecls : String
  endDecls : String
  deriving DecidableEq, Repr

/-- Lines 28-205.  The direct-inclusion check of lines 28-30 stops the build with
the `#error` message; with the include guard `__PMACROS_H__` already defined the
body is skipped and nothing is defined (`none`); otherwise the blocks are
processed top to bottom, each one seeing the macros defined above it. -/
def pmacros (t : Tokens) : Except String (Option Resolved) :=
  if !t.__PLIB_H_INSIDE__ && !t.PLIB_COMPILATION then
    .error "Header files shouldn't be included directly, consider using <plib.h> instead."
  else if t.__PMACROS_H__ then .ok none
  else
    let env := osMacros t ++ ccChain t
    .ok (some ⟨env, P_GNUC_WARN_UNUSED_RESULT t, P_LIB_API env, P_NO_RETURN env,
      P_STRTOK env, P_BEGIN_DECLS t, P_END_DECLS t⟩)

/-! ## The descriptor vocabulary of the specification

The header itself only defines macros.  The functions below read the spec's
`os_family` and `compiler_vendor` off the set of defined tags, so that claims
phrased with those words become statements about the tags the code defines. -/

/-- The OS families of the specification (`Unknown` is the absence of all six). -/
inductive OsFamily where
  | Darwin | Windows | Linux | Solaris | QNX6 | QNX
  deriving DecidableEq, Repr

/-- The top-level tags naming each family: `P_OS_DARWIN` and `P_OS_BSD4` both name
Darwin/BSD4, `P_OS_WIN` and its refinement `P_OS_WIN64` both name Windows. -/
def OsFamily.tags : OsFamily → List Macro
  | .Darwin => [P_OS_DARWIN, P_OS_BSD4]
  | .Windows => [P_OS_WIN, P_OS_WIN64]
  | .Linux => [P_OS_LINUX]
  | .Solaris => [P_OS_SOLARIS]
  | .QNX6 => [P_OS_QNX6]
  | .QNX => [P_OS_QNX]

/-- All six families, in the priority order of the specification. -/
def OsFamily.all : List OsFamily :=
  [.Darwin, .Windows, .Linux, .Solaris, .QNX6, .QNX]

/-- A family is resolved when one of its tags is defined. -/
def familyResolved (env : List Macro) (f : OsFamily) : Bool :=
  f.tags.any (fun m => defined m env)

/-- Every family resolved by a set of defined tags. -/
def osFamilies (env : List Macro) : List OsFamily :=
  OsFamily.all.filter (familyResolved env)

/-- A supported OS combination: at least one detection condition of the chain
holds. -/
def osSupported (t : Tokens) : Bool :=
  darwinCond t || win64Cond t || winCond t || linuxCond t || solarisCond t ||
    qnx6Cond t || qnxCond t

/-- The specification's ordered rule list for the OS: predicate and family, in
priority order (Windows appears twice, 64-bit before 32-bit). -/
def osRules : List ((Tokens → Bool) × OsFamily) :=
  [(darwinCond, .Darwin), (win64Cond, .Windows), (winCond, .Windows),
   (linuxCond, .Linux), (solarisCond, .Solaris), (qnx6Cond, .QNX6), (qnxCond, .QNX)]

/-- First-match-wins over an ordered rule list, as the specification words it:
the value of the first rule whose predicate holds, `none` when none holds. -/
def firstMatch {α : Type} (rules : List ((Tokens → Bool) × α)) (t : Tokens) : Option α :=
  (rules.find? (fun r => r.1 t)).map Prod.snd

/-- The `os_family` the specification prescribes (`none` is `Unknown`). -/
def os_family_spec (t : Tokens) : Option OsFamily := firstMatch osRules t

/-- The compiler vendors of the specification (`Unknown` is the absence of all
five). -/
inductive CompilerVendor where
  | MSVC | GNU | Sun | Watcom | Intel
  deriving DecidableEq, Repr

/-- All five vendors, in the priority order of the specification. -/
def CompilerVendor.all : List CompilerVendor :=
  [.MSVC, .GNU, .Sun, .Watcom, .Intel]

/-- The tag macro naming each vendor. -/
def CompilerVendor.tag : CompilerVendor → Macro
  | .MSVC => P_CC_MSVC
  | .GNU => P_CC_GNU
  | .Sun => P_CC_SUN
  | .Watcom => P_CC_WATCOM
  | .Intel => P_CC_INTEL

/-- A vendor is resolved when its tag is defined at the top level of the chain.
`P_CC_INTEL` is defined in three places: nested inside the MSVC branch (line 85)
and the GNU branch (line 94), where it is the Intel subflag, and at the top
level of the last branch (line 107).  The nested definitions always come with
`P_CC_MSVC` or `P_CC_GNU`, so `P_CC_INTEL` names the vendor exactly when neither
of those two is defined. -/
def vendorResolved (env : List Macro) : CompilerVendor → Bool
  | .MSVC => defined P_CC_MSVC env
  | .GNU => defined P_CC_GNU env
  | .Sun => defined P_CC_SUN env
  | .Watcom => defined P_CC_WATCOM env
  | .Intel => defined P_CC_INTEL env && !defined P_CC_MSVC env && !defined P_CC_GNU env

/-- Every vendor resolved by a set of defined tags. -/
def compilerVendors (env : List Macro) : List CompilerVendor :=
  CompilerVendor.all.filter (vendorResolved env)

/-- A supported compiler combination: at least one of the five compiler tokens
is defined. -/
def ccSupported (t : Tokens) : Bool :=
  t._MSC_VER || t.__GNUC__.isSome || t.__SUNPRO_C || t.__WATCOMC__ || t.__INTEL_COMPILER

/-- The specification's ordered rule list for the compiler vendor. -/
def ccRules : List ((Tokens → Bool) × CompilerVendor) :=
  [(fun t => t._MSC_VER, .MSVC), (fun t => t.__GNUC__.isSome, .GNU),
   (fun t => t.__SUNPRO_C, .Sun), (fun t => t.__WATCOMC__, .Watcom),
   (fun t => t.__INTEL_COMPILER, .Intel)]

/-- The `compiler_vendor` the specification prescribes (`none` is `Unknown`). -/
def compiler_vendor_spec (t : Tokens) : Option CompilerVendor := firstMatch ccRules t

/-- A token combination with nothing defined; concrete inputs are built from it. -/
def noTokens : Tokens :=
  ⟨false, false, false, false, none, none, false, false, false, false, false, false,
   false, false, false, false, false, false, false, false, false, false, false, false,
   false, false, false, false⟩

/-- The spellings of `P_STRTOK(str, delim, buf)` that hand the caller's `buf` to
a reentrant tokenizer (`strtok_s` or `strtok_r`), which keeps its cursor there. -/
def reentrantSpellings : List String :=
  ["strtok_s(str, delim, buf)", "strtok_r(str, delim, buf)"]

/-- The tag macros defined when the derived primitives of lines 110-159 are
selected: the OS macros of lines 37-77 followed by the compiler tags of lines
82-108 (the environment `pmacros` passes to the primitives). -/
def allTags (t : Tokens) : List Macro := osMacros t ++ ccChain t

/-! ## Integer and pointer casts (lines 142-145) -/

/-- The C data models the casts are read under; `int` is 32 bits in each. -/
inductive DataModel where
  | ILP32 | LP64 | LLP64
  deriving DecidableEq, Repr

/-- Width of `int`. -/
def intBits : Nat := 32

/-- Width of `long` in each data model. -/
def DataModel.longBits : DataModel → Nat
  | .ILP32 => 32
  | .LP64 => 64
  | .LLP64 => 32

/-- Width of `void *` in each data model. -/
def DataModel.ptrBits : DataModel → Nat
  | .ILP32 => 32
  | .LP64 => 64
  | .LLP64 => 64

/-- The values of type `int`. -/
def isInt (i : Int) : Bool := decide (-(2 : Int) ^ 31 ≤ i) && decide (i < (2 : Int) ^ 31)

/-- Cast to a signed integer type of `w` bits: the value modulo `2^w`, taken in
the range from `-2^(w-1)` up to `2^(w-1) - 1` (the identity on values that fit,
truncation otherwise). -/
def toSigned (w : Nat) (x : Int) : Int :=
  (x + (2 : Int) ^ (w - 1)) % (2 : Int) ^ w - (2 : Int) ^ (w - 1)

/-- Cast of an integer to a pointer of `w` bits, the pointer being its bit pattern
as a number below `2^w`: the value modulo `2^w`, which sign-extends a narrower
signed integer and truncates a wider one. -/
def toPointer (w : Nat) (x : Int) : Int := x % (2 : Int) ^ w

/-- Line 143: `P_INT_TO_POINTER(i)` is `((void *) (long)(i))`. -/
def P_INT_TO_POINTER (dm : DataModel) (i : Int) : Int :=
  toPointer dm.ptrBits (toSigned dm.longBits i)

/-- Line 145: `P_POINTER_TO_INT(p)` is `((int) (long)(p))`. -/
def P_POINTER_TO_INT (dm : DataModel) (p : Int) : Int :=
  toSigned intBits (toSigned dm.longBits p)

/-! ## Operating-system resolution -/

/-- The tags left by the OS chain and the `P_OS_WIN64` block, branch by branch:
a function of the seven detection conditions and of `__LP64__` only. -/
theorem osTags_eq (t : Tokens) :
    osTags t =
      if darwinCond t then
        (if t.__LP64__ then [P_OS_DARWIN, P_OS_BSD4, P_OS_DARWIN64]
         else [P_OS_DARWIN, P_OS_BSD4, P_OS_DARWIN32])
      else if win64Cond t then [P_OS_WIN64, P_OS_WIN]
      else if winCond t then [P_OS_WIN]
      else if linuxCond t then [P_OS_LINUX]
      else if solarisCond t then [P_OS_SOLARIS]
      else if qnx6Cond t then [P_OS_QNX6]
      else if qnxCond t then [P_OS_QNX]
      else [] := by
  unfold osTags osChain win64Block
  generalize darwinCond t = c1
  generalize t.__LP64__ = lp
  generalize win64Cond t = c2
  generalize winCond t = c3
  generalize linuxCond t = c4
  generalize solarisCond t = c5
  generalize qnx6Cond t = c6
  generalize qnxCond t = c7
  revert c1 lp c2 c3 c4 c5 c6 c7
  decide

/-- C1: whenever at least one OS detection condition holds, the tags defined by
lines 37-68 resolve exactly one OS family (the list of resolved families is a
singleton); `P_OS_DARWIN` and `P_OS_BSD4` are always defined together, and
`P_OS_WIN64` only together with `P_OS_WIN`, so each pair counts once. -/
theorem os_exactly_one_family (t : Tokens) (h : osSupported t = true) :
    (∃ f, osFamilies (osTags t) = [f]) ∧
    defined P_OS_DARWIN (osTags t) = defined P_OS_BSD4 (osTags t) ∧
    (defined P_OS_WIN64 (osTags t) = true → defined P_OS_WIN (osTags t) = true) := by
  rw [osTags_eq]
  unfold osSupported at h
  split_ifs <;> first | exact ⟨⟨_, rfl⟩, by decide, by decide⟩ | simp_all

/-- The C1 theorem applied to a Linux build (`__linux__` and `__GNUC__` defined). -/
theorem os_exactly_one_family_witness :
    osSupported { noTokens with __linux__ := true, __GNUC__ := some 4 } = true ∧
    ((∃ f, osFamilies (osTags { noTokens with __linux__ := true, __GNUC__ := some 4 }) = [f]) ∧
     defined P_OS_DARWIN (osTags { noTokens with __linux__ := true, __GNUC__ := some 4 }) =
       defined P_OS_BSD4 (osTags { noTokens with __linux__ := true, __GNUC__ := some 4 }) ∧
     (defined P_OS_WIN64 (osTags { noTokens with __linux__ := true, __GNUC__ := some 4 }) = true →
       defined P_OS_WIN (osTags { noTokens with __linux__ := true, __GNUC__ := some 4 }) = true)) :=
  ⟨by decide, os_exactly_one_family _ (by decide)⟩

/-- The specification's first-match rule for the OS, branch by branch. -/
theorem os_family_spec_eq (t : Tokens) :
    os_family_spec t =
      if darwinCond t then some .Darwin
      else if win64Cond t then some .Windows
      else if winCond t then some .Windows
      else if linuxCond t then some .Linux
      else if solarisCond t then some .Solaris
      else if qnx6Cond t then some .QNX6
      else if qnxCond t then some .QNX
      else none := by
  unfold os_family_spec firstMatch osRules
  simp only [List.find?]
  generalize darwinCond t = c1
  generalize win64Cond t = c2
  generalize winCond t = c3
  generalize linuxCond t = c4
  generalize solarisCond t = c5
  generalize qnx6Cond t = c6
  generalize qnxCond t = c7
  revert c1 c2 c3 c4 c5 c6 c7
  decide

/-- C2: OS resolution is first-match-wins in the order Darwin, Windows (64-bit,
then 32-bit), Linux, Solaris, QNX6, QNX.  The families resolved by the tags of
lines 37-68 are exactly the family of the earliest condition that holds (none
when no condition holds), and no tag of any other family, in particular of any
later one, is defined.  Two instances: with no Darwin match, a Windows condition
together with the Linux condition gives Windows only; with nothing earlier
matching, `__QNXNTO__` together with `__QNX__` gives QNX6 and not QNX. -/
theorem os_first_match_wins (t : Tokens) :
    osFamilies (osTags t) = (os_family_spec t).toList ∧
    (∀ f : OsFamily, os_family_spec t ≠ some f →
      ∀ m ∈ f.tags, defined m (osTags t) = false) ∧
    (darwinCond t = false → (win64Cond t || winCond t) = true → linuxCond t = true →
      osFamilies (osTags t) = [.Windows] ∧ defined P_OS_LINUX (osTags t) = false) ∧
    (darwinCond t = false → win64Cond t = false → winCond t = false →
      linuxCond t = false → solarisCond t = false →
      t.__QNXNTO__ = true → t.__QNX__ = true →
      osFamilies (osTags t) = [.QNX6] ∧ defined P_OS_QNX (osTags t) = false) := by
  rw [osTags_eq, os_family_spec_eq]
  unfold qnx6Cond qnxCond
  generalize darwinCond t = c1
  generalize t.__LP64__ = lp
  generalize win64Cond t = c2
  generalize winCond t = c3
  generalize linuxCond t = c4
  generalize solarisCond t = c5
  generalize t.__QNXNTO__ = c6
  generalize t.__QNX__ = c7
  refine ⟨?_, ?_, ?_, ?_⟩
  · revert c1 lp c2 c3 c4 c5 c6 c7
    decide
  · intro f
    cases f <;> simp only [OsFamily.tags, List.mem_cons, List.mem_singleton, List.not_mem_nil,
      or_false, forall_eq_or_imp, forall_eq] <;>
      (revert c1 lp c2 c3 c4 c5 c6 c7; decide)
  · revert c1 lp c2 c3 c4 c5 c6 c7
    decide
  · revert c1 lp c2 c3 c4 c5 c6 c7
    decide

/-- The C2 theorem at a concrete input: `_WIN32` together with `__linux__`
resolves to Windows, and `P_OS_LINUX` is not defined. -/
theorem os_first_match_wins_witness :
    osFamilies (osTags { noTokens with _WIN32 := true, __linux__ := true }) = [.Windows] ∧
    defined P_OS_LINUX (osTags { noTokens with _WIN32 := true, __linux__ := true }) = false :=
  (os_first_match_wins { noTokens with _WIN32 := true, __linux__ := true }).2.2.1
    (by decide) (by decide) (by decide)

/-- C3: a Darwin bitness tag (`P_OS_DARWIN64` or `P_OS_DARWIN32`) is defined if
and only if the resolved family is Darwin/BSD4; in that case exactly one of the
two is defined: `P_OS_DARWIN64` when `__LP64__` is defined, `P_OS_DARWIN32`
otherwise. -/
theorem darwin_bitness_iff_darwin (t : Tokens) :
    ((defined P_OS_DARWIN64 (osTags t) = true ∨ defined P_OS_DARWIN32 (osTags t) = true) ↔
      osFamilies (osTags t) = [.Darwin]) ∧
    (osFamilies (osTags t) = [.Darwin] →
      defined P_OS_DARWIN64 (osTags t) = t.__LP64__ ∧
      defined P_OS_DARWIN32 (osTags t) = !t.__LP64__) := by
  rw [osTags_eq]
  generalize darwinCond t = c1
  generalize t.__LP64__ = lp
  generalize win64Cond t = c2
  generalize winCond t = c3
  generalize linuxCond t = c4
  generalize solarisCond t = c5
  generalize qnx6Cond t = c6
  generalize qnxCond t = c7
  revert c1 lp c2 c3 c4 c5 c6 c7
  decide

/-- The C3 theorem at a 64-bit Darwin build (`__APPLE__`, `__GNUC__`, `__LP64__`):
`P_OS_DARWIN64` is defined and `P_OS_DARWIN32` is not. -/
theorem darwin_bitness_iff_darwin_witness :
    defined P_OS_DARWIN64
        (osTags { noTokens with __APPLE__ := true, __GNUC__ := some 4, __LP64__ := true }) = true ∧
    defined P_OS_DARWIN32
        (osTags { noTokens with __APPLE__ := true, __GNUC__ := some 4, __LP64__ := true }) = !true :=
  (darwin_bitness_iff_darwin
    { noTokens with __APPLE__ := true, __GNUC__ := some 4, __LP64__ := true }).2 (by decide)

/-- C4: whenever `P_OS_WIN64` is defined, `P_OS_WIN` is defined too; and when the
Darwin condition does not hold and any of `_WIN64`, `_M_X64`, `_M_AMD64` is
defined, both tags are defined, whatever the state of `__WIN32__`, `_WIN32` and
`WIN32`. -/
theorem win64_implies_win (t : Tokens) :
    (defined P_OS_WIN64 (osTags t) = true → defined P_OS_WIN (osTags t) = true) ∧
    (darwinCond t = false → (t._WIN64 || t._M_X64 || t._M_AMD64) = true →
      defined P_OS_WIN64 (osTags t) = true ∧ defined P_OS_WIN (osTags t) = true) := by
  rw [osTags_eq]
  unfold win64Cond
  generalize darwinCond t = c1
  generalize t.__LP64__ = lp
  generalize (t._WIN64 || t._M_X64 || t._M_AMD64) = c2
  generalize winCond t = c3
  generalize linuxCond t = c4
  generalize solarisCond t = c5
  generalize qnx6Cond t = c6
  generalize qnxCond t = c7
  revert c1 lp c2 c3 c4 c5 c6 c7
  decide

/-- The C4 theorem at a build where only `_M_X64` is defined (none of
`__WIN32__`, `_WIN32`, `WIN32`): both Windows tags are defined. -/
theorem win64_implies_win_witness :
    defined P_OS_WIN64 (osTags { noTokens with _M_X64 := true }) = true ∧
    defined P_OS_WIN (osTags { noTokens with _M_X64 := true }) = true :=
  (win64_implies_win { noTokens with _M_X64 := true }).2 (by decide) (by decide)

/-! ## Compiler resolution -/

/-- The specification's first-match rule for the compiler vendor, branch by
branch. -/
theorem compiler_vendor_spec_eq (t : Tokens) :
    compiler_vendor_spec t =
      if t._MSC_VER then some .MSVC
      else if t.__GNUC__.isSome then some .GNU
      else if t.__SUNPRO_C then some .Sun
      else if t.__WATCOMC__ then some .Watcom
      else if t.__INTEL_COMPILER then some .Intel
      else none := by
  unfold compiler_vendor_spec firstMatch ccRules
  simp only [List.find?]
  generalize t._MSC_VER = c1
  generalize t.__GNUC__.isSome = c2
  generalize t.__SUNPRO_C = c3
  generalize t.__WATCOMC__ = c4
  generalize t.__INTEL_COMPILER = c5
  revert c1 c2 c3 c4 c5
  decide

/-- C5: whenever at least one of `_MSC_VER`, `__GNUC__`, `__SUNPRO_C`,
`__WATCOMC__`, `__INTEL_COMPILER` is defined, the tags defined by lines 82-108
resolve exactly one top-level compiler vendor (the list of resolved vendors is a
singleton), and its tag is the one the selected branch defines at its top level,
ahead of any nested subflag.  `P_CC_INTEL` defined next to `P_CC_MSVC` or
`P_CC_GNU` is the Intel subflag of that vendor and not a second vendor. -/
theorem cc_exactly_one_vendor (t : Tokens) (h : ccSupported t = true) :
    ∃ v, compilerVendors (ccChain t) = [v] ∧ (ccChain t).head? = some v.tag := by
  unfold ccSupported at h
  unfold ccChain
  revert h
  generalize t._MSC_VER = c1
  generalize t.__GNUC__.isSome = c2
  generalize t.__SUNPRO_C = c3
  generalize t.__WATCOMC__ = c4
  generalize t.__INTEL_COMPILER = c5
  generalize t.__MINGW32__ = s1
  generalize t.__clang__ = s2
  cases c1 <;> cases c2 <;> cases c3 <;> cases c4 <;> cases c5 <;> cases s1 <;> cases s2 <;>
    first
    | exact fun _ => ⟨_, rfl, rfl⟩
    | exact fun h => absurd h (by decide)

/-- The C5 theorem applied to a Sun compiler that also defines
`__INTEL_COMPILER`. -/
theorem cc_exactly_one_vendor_witness :
    ccSupported { noTokens with __SUNPRO_C := true, __INTEL_COMPILER := true } = true ∧
    ∃ v, compilerVendors
        (ccChain { noTokens with __SUNPRO_C := true, __INTEL_COMPILER := true }) = [v] ∧
      (ccChain { noTokens with __SUNPRO_C := true, __INTEL_COMPILER := true }).head? =
        some v.tag :=
  ⟨by decide, cc_exactly_one_vendor _ (by decide)⟩

/-- C6: compiler vendor resolution is first-match-wins in the order `_MSC_VER`,
`__GNUC__`, `__SUNPRO_C`, `__WATCOMC__`, `__INTEL_COMPILER`: the vendors resolved
by the tags of lines 82-108 are exactly the vendor of the earliest defined token
(none when none is defined).  With `_MSC_VER` and `__INTEL_COMPILER` both defined
the vendor is MSVC and the Intel subflag `P_CC_INTEL` is set; the vendor is never
Intel while `_MSC_VER` or `__GNUC__` is defined. -/
theorem cc_first_match_wins (t : Tokens) :
    compilerVendors (ccChain t) = (compiler_vendor_spec t).toList ∧
    (t._MSC_VER = true → t.__INTEL_COMPILER = true →
      compilerVendors (ccChain t) = [.MSVC] ∧ defined P_CC_INTEL (ccChain t) = true) ∧
    (t._MSC_VER = true ∨ t.__GNUC__.isSome = true →
      CompilerVendor.Intel ∉ compilerVendors (ccChain t)) := by
  rw [compiler_vendor_spec_eq]
  unfold ccChain
  generalize t._MSC_VER = c1
  generalize t.__GNUC__.isSome = c2
  generalize t.__SUNPRO_C = c3
  generalize t.__WATCOMC__ = c4
  generalize t.__INTEL_COMPILER = c5
  generalize t.__MINGW32__ = s1
  generalize t.__clang__ = s2
  revert c1 c2 c3 c4 c5 s1 s2
  decide

/-- The C6 theorem at an Intel compiler emulating MSVC (`_MSC_VER` and
`__INTEL_COMPILER` defined): vendor MSVC, Intel subflag set. -/
theorem cc_first_match_wins_witness :
    compilerVendors
        (ccChain { noTokens with _MSC_VER := true, __INTEL_COMPILER := true }) = [.MSVC] ∧
    defined P_CC_INTEL
        (ccChain { noTokens with _MSC_VER := true, __INTEL_COMPILER := true }) = true :=
  (cc_first_match_wins { noTokens with _MSC_VER := true, __INTEL_COMPILER := true }).2.1
    (by decide) (by decide)

/-- C7: if the MinGW subflag `P_CC_MINGW` or the Clang subflag `P_CC_CLANG` is
defined, then `P_CC_GNU` is defined and `P_CC_MSVC` is not; hence with `_MSC_VER`
defined neither subflag is set, whatever the state of `__MINGW32__` and
`__clang__`. -/
theorem mingw_clang_only_with_gnu (t : Tokens) :
    (defined P_CC_MINGW (ccChain t) = true ∨ defined P_CC_CLANG (ccChain t) = true →
      defined P_CC_GNU (ccChain t) = true ∧ defined P_CC_MSVC (ccChain t) = false ∧
      compilerVendors (ccChain t) = [.GNU]) ∧
    (t._MSC_VER = true →
      defined P_CC_MINGW (ccChain t) = false ∧ defined P_CC_CLANG (ccChain t) = false) := by
  unfold ccChain
  generalize t._MSC_VER = c1
  generalize t.__GNUC__.isSome = c2
  generalize t.__SUNPRO_C = c3
  generalize t.__WATCOMC__ = c4
  generalize t.__INTEL_COMPILER = c5
  generalize t.__MINGW32__ = s1
  generalize t.__clang__ = s2
  revert c1 c2 c3 c4 c5 s1 s2
  decide

/-- The C7 theorem at `_MSC_VER` with `__MINGW32__`, `__clang__` and `__GNUC__`
all defined: neither subflag is set. -/
theorem mingw_clang_only_with_gnu_witness :
    defined P_CC_MINGW (ccChain { noTokens with
      _MSC_VER := true, __GNUC__ := some 4, __MINGW32__ := true, __clang__ := true }) = false ∧
    defined P_CC_CLANG (ccChain { noTokens with
      _MSC_VER := true, __GNUC__ := some 4, __MINGW32__ := true, __clang__ := true }) = false :=
  (mingw_clang_only_with_gnu { noTokens with
    _MSC_VER := true, __GNUC__ := some 4, __MINGW32__ := true, __clang__ := true }).2 (by decide)

/-- C8, as stated, fails: with `__GNUC__`, `__MINGW32__` and `__clang__` all
defined (Clang targeting MinGW) the two nested `#if` blocks of lines 90-98 both
fire, so `P_CC_MINGW` and `P_CC_CLANG` are defined together with `P_CC_GNU`. -/
theorem mingw_clang_both_defined :
    defined P_CC_GNU (ccChain { noTokens with
      __GNUC__ := some 4, __MINGW32__ := true, __clang__ := true }) = true ∧
    defined P_CC_MINGW (ccChain { noTokens with
      __GNUC__ := some 4, __MINGW32__ := true, __clang__ := true }) = true ∧
    defined P_CC_CLANG (ccChain { noTokens with
      __GNUC__ := some 4, __MINGW32__ := true, __clang__ := true }) = true := by
  decide

/-- C8, amended: the subflags are independent of one another.  `P_CC_MINGW` is
defined exactly when `P_CC_GNU` is defined and `__MINGW32__` is, `P_CC_CLANG`
exactly when `P_CC_GNU` is defined and `__clang__` is, so both are defined
together when both tokens are; and under `P_CC_GNU` the Intel subflag
`P_CC_INTEL` follows `__INTEL_COMPILER` alone, so it may be defined together
with either of them or with both. -/
theorem gnu_subflags_independent (t : Tokens) :
    defined P_CC_MINGW (ccChain t) = (defined P_CC_GNU (ccChain t) && t.__MINGW32__) ∧
    defined P_CC_CLANG (ccChain t) = (defined P_CC_GNU (ccChain t) && t.__clang__) ∧
    (defined P_CC_GNU (ccChain t) = true →
      defined P_CC_INTEL (ccChain t) = t.__INTEL_COMPILER) := by
  unfold ccChain
  generalize t._MSC_VER = c1
  generalize t.__GNUC__.isSome = c2
  generalize t.__SUNPRO_C = c3
  generalize t.__WATCOMC__ = c4
  generalize t.__INTEL_COMPILER = c5
  generalize t.__MINGW32__ = s1
  generalize t.__clang__ = s2
  revert c1 c2 c3 c4 c5 s1 s2
  decide

/-- The amended C8 theorem at a GNU build with `__INTEL_COMPILER` and `__clang__`
defined: the Intel subflag is set next to the Clang subflag. -/
theorem gnu_subflags_independent_witness :
    defined P_CC_INTEL (ccChain { noTokens with
      __GNUC__ := some 4, __INTEL_COMPILER := true, __clang__ := true }) = true ∧
    defined P_CC_CLANG (ccChain { noTokens with
      __GNUC__ := some 4, __INTEL_COMPILER := true, __clang__ := true }) = (true && true) :=
  ⟨(gnu_subflags_independent { noTokens with
      __GNUC__ := some 4, __INTEL_COMPILER := true, __clang__ := true }).2.2 (by decide),
   (gnu_subflags_independent { noTokens with
      __GNUC__ := some 4, __INTEL_COMPILER := true, __clang__ := true }).2.1⟩

/-! ## The unused-result gate -/

/-- The gate of line 114 holds exactly when the version pair is at least (3,4). -/
theorem warnUnusedCond_iff (t : Tokens) :
    warnUnusedCond t = true ↔
      ppValue t.__GNUC__ > 3 ∨ (ppValue t.__GNUC__ = 3 ∧ ppValue t.__GNUC_MINOR__ ≥ 4) := by
  simp [warnUnusedCond]

/-- With `__GNUC__` undefined the gate of line 114 is closed. -/
theorem warnUnusedCond_of_undefined (t : Tokens) (h : t.__GNUC__.isSome = false) :
    warnUnusedCond t = false := by
  cases hg : t.__GNUC__ with
  | none => simp [warnUnusedCond, ppValue, hg]
  | some v => simp [hg] at h

/-- The annotation is the active attribute exactly when the gate holds. -/
theorem warn_unused_active_iff (t : Tokens) :
    P_GNUC_WARN_UNUSED_RESULT t = "__attribute__((warn_unused_result))" ↔
      warnUnusedCond t = true := by
  unfold P_GNUC_WARN_UNUSED_RESULT
  generalize warnUnusedCond t = b
  revert b
  decide

/-- The annotation is empty exactly when the gate does not hold. -/
theorem warn_unused_empty_iff (t : Tokens) :
    P_GNUC_WARN_UNUSED_RESULT t = "" ↔ ¬ warnUnusedCond t = true := by
  unfold P_GNUC_WARN_UNUSED_RESULT
  generalize warnUnusedCond t = b
  revert b
  decide

/-- A constant that fits `intmax_t` is read as itself. -/
theorem ppRead_of_fits (v : Int) (h : fitsIntmax v = true) : ppRead v = v := by
  have h2 : -(2 : Int) ^ 63 < v ∧ v < (2 : Int) ^ 63 := by
    simpa [fitsIntmax] using h
  have h3 : v.natAbs < 2 ^ 63 := by
    have := h2.1
    have := h2.2
    omega
  unfold ppRead
  rw [if_pos h3]

/-- A token that is undefined, or expands to a constant that fits `intmax_t`,
has the value `getD 0` gives it. -/
theorem ppValue_of_fits (tok : Option Int) (h : fitsIntmax (tok.getD 0) = true) :
    ppValue tok = tok.getD 0 := by
  cases tok with
  | none => rfl
  | some v => exact ppRead_of_fits v h

/-- The reading of constants that do not fit `intmax_t`: `2^64` reads as `0`,
`2^64 + 4` as `4`, `-(2^64 + 5)` as `-5`, `-2^63` and `2^63` as the unsigned
`2^63`, `-(2^64 - 4)` as the unsigned `4`, and `2^64 + 2^63` as `-2^63`. -/
theorem ppValue_beyond_intmax :
    ppValue (some 18446744073709551616) = 0 ∧
    ppValue (some 18446744073709551620) = 4 ∧
    ppValue (some (-18446744073709551621)) = -5 ∧
    ppValue (some (-9223372036854775808)) = 9223372036854775808 ∧
    ppValue (some 9223372036854775808) = 9223372036854775808 ∧
    ppValue (some (-18446744073709551612)) = 4 ∧
    ppValue (some 27670116110564327424) = -9223372036854775808 := by
  decide

/-- C9: for every version pair `(major, minor)` reported through `__GNUC__` and
`__GNUC_MINOR__` (an undefined token reading as 0) that the preprocessor can
hold in its 64-bit `intmax_t`, `P_GNUC_WARN_UNUSED_RESULT` is
`__attribute__((warn_unused_result))` if and only if `major > 3`, or
`major = 3` and `minor >= 4`, and is empty otherwise.  In particular it is active
for (3,4), (3,5), (4,0) and empty for (3,3) and (2,9). -/
theorem warn_unused_result_gate (t : Tokens) (major minor : Int)
    (hmajor : t.__GNUC__.getD 0 = major) (hminor : t.__GNUC_MINOR__.getD 0 = minor)
    (hmajorFits : fitsIntmax major = true) (hminorFits : fitsIntmax minor = true) :
    (P_GNUC_WARN_UNUSED_RESULT t = "__attribute__((warn_unused_result))" ↔
      major > 3 ∨ (major = 3 ∧ minor ≥ 4)) ∧
    (¬ (major > 3 ∨ (major = 3 ∧ minor ≥ 4)) → P_GNUC_WARN_UNUSED_RESULT t = "") ∧
    (major = 3 ∧ minor = 4 → P_GNUC_WARN_UNUSED_RESULT t = "__attribute__((warn_unused_result))") ∧
    (major = 3 ∧ minor = 5 → P_GNUC_WARN_UNUSED_RESULT t = "__attribute__((warn_unused_result))") ∧
    (major = 4 ∧ minor = 0 → P_GNUC_WARN_UNUSED_RESULT t = "__attribute__((warn_unused_result))") ∧
    (major = 3 ∧ minor = 3 → P_GNUC_WARN_UNUSED_RESULT t = "") ∧
    (major = 2 ∧ minor = 9 → P_GNUC_WARN_UNUSED_RESULT t = "") := by
  have hc := warnUnusedCond_iff t
  rw [ppValue_of_fits t.__GNUC__ (by rw [hmajor]; exact hmajorFits),
    ppValue_of_fits t.__GNUC_MINOR__ (by rw [hminor]; exact hminorFits),
    hmajor, hminor] at hc
  rw [warn_unused_active_iff, warn_unused_empty_iff, hc]
  refine ⟨Iff.rfl, id, ?_, ?_, ?_, ?_, ?_⟩ <;> intro h <;> omega

/-- The C9 theorem at the boundary version 3.4: the attribute is active. -/
theorem warn_unused_result_gate_witness :
    (({ noTokens with __GNUC__ := some 3, __GNUC_MINOR__ := some 4 }.__GNUC__.getD 0 = 3 ∧
      { noTokens with __GNUC__ := some 3, __GNUC_MINOR__ := some 4 }.__GNUC_MINOR__.getD 0 = 4) ∧
     (fitsIntmax 3 = true ∧ fitsIntmax 4 = true)) ∧
    P_GNUC_WARN_UNUSED_RESULT { noTokens with __GNUC__ := some 3, __GNUC_MINOR__ := some 4 } =
      "__attribute__((warn_unused_result))" :=
  ⟨⟨⟨rfl, rfl⟩, ⟨by decide, by decide⟩⟩,
   (warn_unused_result_gate { noTokens with __GNUC__ := some 3, __GNUC_MINOR__ := some 4 } 3 4
      rfl rfl (by decide) (by decide)).2.2.1 ⟨rfl, rfl⟩⟩

/-- C10, as stated, fails: with `_MSC_VER` and `__GNUC__ = 4` both defined the
resolved vendor is MSVC, yet the gate of line 114 reads `__GNUC__` directly and
`P_GNUC_WARN_UNUSED_RESULT` is the active attribute. -/
theorem warn_unused_active_under_msvc :
    compilerVendors (ccChain { noTokens with _MSC_VER := true, __GNUC__ := some 4 }) = [.MSVC] ∧
    P_GNUC_WARN_UNUSED_RESULT { noTokens with _MSC_VER := true, __GNUC__ := some 4 } =
      "__attribute__((warn_unused_result))" := by
  decide

/-- C10, amended: the annotation is selected from the version tokens, not from
the resolved vendor.  If `P_GNUC_WARN_UNUSED_RESULT` is the active attribute then
the resolved vendor is GNU or MSVC; whatever the resolved vendor, for version
tokens the preprocessor can hold in its 64-bit `intmax_t` (an undefined token
reading as 0) it is active exactly when the version pair is at least (3,4); and
for every resolved vendor Sun, Watcom, Intel or Unknown it is empty, whatever
`__GNUC_MINOR__` is. -/
theorem warn_unused_result_by_vendor (t : Tokens) :
    (P_GNUC_WARN_UNUSED_RESULT t = "__attribute__((warn_unused_result))" →
      compilerVendors (ccChain t) = [.GNU] ∨ compilerVendors (ccChain t) = [.MSVC]) ∧
    (fitsIntmax (t.__GNUC__.getD 0) = true → fitsIntmax (t.__GNUC_MINOR__.getD 0) = true →
      (P_GNUC_WARN_UNUSED_RESULT t = "__attribute__((warn_unused_result))" ↔
        t.__GNUC__.getD 0 > 3 ∨
          (t.__GNUC__.getD 0 = 3 ∧ t.__GNUC_MINOR__.getD 0 ≥ 4))) ∧
    (compilerVendors (ccChain t) = [.Sun] ∨ compilerVendors (ccChain t) = [.Watcom] ∨
      compilerVendors (ccChain t) = [.Intel] ∨ compilerVendors (ccChain t) = [] →
      P_GNUC_WARN_UNUSED_RESULT t = "") := by
  have hact := warn_unused_active_iff t
  have hvend2 : (t._MSC_VER = true ∨ t.__GNUC__.isSome = true) →
      compilerVendors (ccChain t) = [.GNU] ∨ compilerVendors (ccChain t) = [.MSVC] := by
    unfold ccChain
    generalize t._MSC_VER = c1
    generalize t.__GNUC__.isSome = c2
    generalize t.__SUNPRO_C = c3
    generalize t.__WATCOMC__ = c4
    generalize t.__INTEL_COMPILER = c5
    generalize t.__MINGW32__ = s1
    generalize t.__clang__ = s2
    revert c1 c2 c3 c4 c5 s1 s2
    decide
  refine ⟨fun h => ?_, fun h1 h2 => ?_, fun h => ?_⟩
  · apply hvend2
    cases hg : t.__GNUC__.isSome with
    | true => exact Or.inr rfl
    | false =>
      have := warnUnusedCond_of_undefined t hg
      rw [hact.1 h] at this
      exact absurd this (by decide)
  · have hc := warnUnusedCond_iff t
    rw [ppValue_of_fits t.__GNUC__ h1, ppValue_of_fits t.__GNUC_MINOR__ h2] at hc
    exact hact.trans hc
  · have hg : t.__GNUC__.isSome = false := by
      cases hg : t.__GNUC__.isSome with
      | false => rfl
      | true =>
        have h2 := hvend2 (Or.inr hg)
        rcases h2 with h2 | h2 <;> rw [h2] at h <;> exact absurd h (by decide)
    rw [warn_unused_empty_iff, warnUnusedCond_of_undefined t hg]
    decide

/-- The amended C10 theorem at a Sun compiler that defines `__GNUC_MINOR__ = 9`
but not `__GNUC__`: the annotation is empty. -/
theorem warn_unused_result_by_vendor_witness :
    P_GNUC_WARN_UNUSED_RESULT
      { noTokens with __SUNPRO_C := true, __GNUC_MINOR__ := some 9 } = "" :=
  (warn_unused_result_by_vendor
    { noTokens with __SUNPRO_C := true, __GNUC_MINOR__ := some 9 }).2.2 (Or.inl (by decide))

/-! ## Tags seen by the derived primitives -/

/-- The preprocessor `defined` over two blocks processed one after the other. -/
theorem defined_append (m : Macro) (a b : List Macro) :
    defined m (a ++ b) = (defined m a || defined m b) := by
  simp [defined, List.contains_eq_any_beq]

/-- All OS macros of lines 37-77, branch by branch. -/
theorem osMacros_eq (t : Tokens) :
    osMacros t =
      if darwinCond t then
        (if t.__LP64__ then [P_OS_DARWIN, P_OS_BSD4, P_OS_DARWIN64, P_OS_MAC, P_OS_MAC64]
         else [P_OS_DARWIN, P_OS_BSD4, P_OS_DARWIN32, P_OS_MAC, P_OS_MAC32])
      else if win64Cond t then [P_OS_WIN64, P_OS_WIN]
      else if winCond t then [P_OS_WIN]
      else if linuxCond t then [P_OS_LINUX]
      else if solarisCond t then [P_OS_SOLARIS]
      else if qnx6Cond t then [P_OS_QNX6]
      else if qnxCond t then [P_OS_QNX]
      else [] := by
  unfold osMacros macBlock
  rw [osTags_eq]
  generalize darwinCond t = c1
  generalize t.__LP64__ = lp
  generalize win64Cond t = c2
  generalize winCond t = c3
  generalize linuxCond t = c4
  generalize solarisCond t = c5
  generalize qnx6Cond t = c6
  generalize qnxCond t = c7
  revert c1 lp c2 c3 c4 c5 c6 c7
  decide

/-- The OS blocks define none of the compiler tags the primitives test. -/
theorem osMacros_no_cc (t : Tokens) :
    defined P_CC_MSVC (osMacros t) = false ∧ defined P_CC_GNU (osMacros t) = false ∧
    defined P_CC_MINGW (osMacros t) = false := by
  rw [osMacros_eq]
  generalize darwinCond t = c1
  generalize t.__LP64__ = lp
  generalize win64Cond t = c2
  generalize winCond t = c3
  generalize linuxCond t = c4
  generalize solarisCond t = c5
  generalize qnx6Cond t = c6
  generalize qnxCond t = c7
  revert c1 lp c2 c3 c4 c5 c6 c7
  decide

/-- The `P_OS_MAC*` block does not change whether `P_OS_WIN` is defined. -/
theorem osMacros_win (t : Tokens) :
    defined P_OS_WIN (osMacros t) = defined P_OS_WIN (osTags t) := by
  rw [osMacros_eq, osTags_eq]
  generalize darwinCond t = c1
  generalize t.__LP64__ = lp
  generalize win64Cond t = c2
  generalize winCond t = c3
  generalize linuxCond t = c4
  generalize solarisCond t = c5
  generalize qnx6Cond t = c6
  generalize qnxCond t = c7
  revert c1 lp c2 c3 c4 c5 c6 c7
  decide

/-- The compiler chain does not define `P_OS_WIN`. -/
theorem ccChain_no_win (t : Tokens) : defined P_OS_WIN (ccChain t) = false := by
  unfold ccChain
  generalize t._MSC_VER = c1
  generalize t.__GNUC__.isSome = c2
  generalize t.__SUNPRO_C = c3
  generalize t.__WATCOMC__ = c4
  generalize t.__INTEL_COMPILER = c5
  generalize t.__MINGW32__ = s1
  generalize t.__clang__ = s2
  revert c1 c2 c3 c4 c5 s1 s2
  decide

/-- Where the primitives are selected, `P_OS_WIN` is defined exactly when the OS
blocks defined it. -/
theorem allTags_win (t : Tokens) :
    defined P_OS_WIN (allTags t) = defined P_OS_WIN (osTags t) := by
  rw [allTags, defined_append, ccChain_no_win, osMacros_win, Bool.or_false]

/-- Where the primitives are selected, `P_CC_MSVC` is as the compiler chain left it. -/
theorem allTags_msvc (t : Tokens) :
    defined P_CC_MSVC (allTags t) = defined P_CC_MSVC (ccChain t) := by
  rw [allTags, defined_append, (osMacros_no_cc t).1, Bool.false_or]

/-- Where the primitives are selected, `P_CC_GNU` is as the compiler chain left it. -/
theorem allTags_gnu (t : Tokens) :
    defined P_CC_GNU (allTags t) = defined P_CC_GNU (ccChain t) := by
  rw [allTags, defined_append, (osMacros_no_cc t).2.1, Bool.false_or]

/-- Where the primitives are selected, `P_CC_MINGW` is as the compiler chain left it. -/
theorem allTags_mingw (t : Tokens) :
    defined P_CC_MINGW (allTags t) = defined P_CC_MINGW (ccChain t) := by
  rw [allTags, defined_append, (osMacros_no_cc t).2.2, Bool.false_or]

/-- The resolved family is Windows exactly when `P_OS_WIN` is defined. -/
theorem windows_iff_win_defined (t : Tokens) :
    osFamilies (osTags t) = [.Windows] ↔ defined P_OS_WIN (osTags t) = true := by
  rw [osTags_eq]
  generalize darwinCond t = c1
  generalize t.__LP64__ = lp
  generalize win64Cond t = c2
  generalize winCond t = c3
  generalize linuxCond t = c4
  generalize solarisCond t = c5
  generalize qnx6Cond t = c6
  generalize qnxCond t = c7
  revert c1 lp c2 c3 c4 c5 c6 c7
  decide

/-! ## The tokenizer -/

/-- The families other than Windows: when the resolved family is not Windows it
is one of Linux, Darwin, Solaris, QNX6, QNX, or none (Unknown). -/
theorem not_windows_iff (t : Tokens) :
    osFamilies (osTags t) ≠ [.Windows] ↔
      osFamilies (osTags t) ∈
        [[OsFamily.Linux], [OsFamily.Darwin], [OsFamily.Solaris], [OsFamily.QNX6],
         [OsFamily.QNX], []] := by
  rw [osTags_eq]
  generalize darwinCond t = c1
  generalize t.__LP64__ = lp
  generalize win64Cond t = c2
  generalize winCond t = c3
  generalize linuxCond t = c4
  generalize solarisCond t = c5
  generalize qnx6Cond t = c6
  generalize qnxCond t = c7
  revert c1 lp c2 c3 c4 c5 c6 c7
  decide

/-- C11: `P_STRTOK` resolves to exactly one of three spellings:
`strtok(str, delim)` exactly when the OS is Windows and the MinGW subflag is
set, `strtok_s(str, delim, buf)` exactly when the OS is Windows and the MinGW
subflag is not set, and `strtok_r(str, delim, buf)` exactly when the OS is not
Windows, that is Linux, Darwin, Solaris, QNX6, QNX or Unknown.  The three
spellings differ, so the three conditions are pairwise exclusive, and they are
jointly exhaustive. -/
theorem strtok_selection (t : Tokens) :
    (P_STRTOK (allTags t) = "strtok(str, delim)" ↔
      osFamilies (osTags t) = [.Windows] ∧ defined P_CC_MINGW (ccChain t) = true) ∧
    (P_STRTOK (allTags t) = "strtok_s(str, delim, buf)" ↔
      osFamilies (osTags t) = [.Windows] ∧ defined P_CC_MINGW (ccChain t) = false) ∧
    (P_STRTOK (allTags t) = "strtok_r(str, delim, buf)" ↔
      osFamilies (osTags t) ≠ [.Windows]) ∧
    (osFamilies (osTags t) ≠ [.Windows] ↔
      osFamilies (osTags t) ∈
        [[OsFamily.Linux], [OsFamily.Darwin], [OsFamily.Solaris], [OsFamily.QNX6],
         [OsFamily.QNX], []]) ∧
    ((osFamilies (osTags t) = [.Windows] ∧ defined P_CC_MINGW (ccChain t) = true) ∨
     (osFamilies (osTags t) = [.Windows] ∧ defined P_CC_MINGW (ccChain t) = false) ∨
     osFamilies (osTags t) ≠ [.Windows]) := by
  have hw := windows_iff_win_defined t
  have hs : P_STRTOK (allTags t) =
      if defined P_OS_WIN (osTags t) then
        if defined P_CC_MINGW (ccChain t) then "strtok(str, delim)"
        else "strtok_s(str, delim, buf)"
      else "strtok_r(str, delim, buf)" := by
    unfold P_STRTOK
    rw [allTags_win, allTags_mingw]
  refine ⟨?_, ?_, ?_, not_windows_iff t, ?_⟩
  all_goals
    simp only [ne_eq, hw, hs]
    generalize defined P_OS_WIN (osTags t) = w
    generalize defined P_CC_MINGW (ccChain t) = m
    revert w m
    decide

/-- C12, as stated, fails: on a MinGW build for Windows (`_WIN32`, `__GNUC__` and
`__MINGW32__` defined) the branch of line 153 is selected and
`P_STRTOK(str, delim, buf)` is plain `strtok(str, delim)`, which drops `buf`; it
is neither of the two reentrant spellings. -/
theorem strtok_plain_on_mingw :
    osFamilies (osTags { noTokens with
      _WIN32 := true, __GNUC__ := some 4, __MINGW32__ := true }) = [.Windows] ∧
    compilerVendors (ccChain { noTokens with
      _WIN32 := true, __GNUC__ := some 4, __MINGW32__ := true }) = [.GNU] ∧
    P_STRTOK (allTags { noTokens with
      _WIN32 := true, __GNUC__ := some 4, __MINGW32__ := true }) = "strtok(str, delim)" ∧
    P_STRTOK (allTags { noTokens with
      _WIN32 := true, __GNUC__ := some 4, __MINGW32__ := true }) ∉ reentrantSpellings := by
  decide

/-- `P_STRTOK` as a function of `P_OS_WIN` and `P_CC_MINGW`, each as its own
block left it. -/
theorem strtok_eq (t : Tokens) :
    P_STRTOK (allTags t) =
      if defined P_OS_WIN (osTags t) then
        if defined P_CC_MINGW (ccChain t) then "strtok(str, delim)"
        else "strtok_s(str, delim, buf)"
      else "strtok_r(str, delim, buf)" := by
  unfold P_STRTOK
  rw [allTags_win, allTags_mingw]

/-- C12, amended: `P_STRTOK` is a reentrant tokenizer on every target except
Windows with the MinGW subflag.  The selected spelling hands `buf` to `strtok_s`
or `strtok_r` if and only if it is not the case that the OS is Windows and
`P_CC_MINGW` is set; on Windows with `P_CC_MINGW` it is plain
`strtok(str, delim)`, which ignores `buf`. -/
theorem strtok_reentrant_unless_mingw (t : Tokens) :
    (P_STRTOK (allTags t) ∈ reentrantSpellings ↔
      ¬ (osFamilies (osTags t) = [.Windows] ∧ defined P_CC_MINGW (ccChain t) = true)) ∧
    (osFamilies (osTags t) = [.Windows] ∧ defined P_CC_MINGW (ccChain t) = true →
      P_STRTOK (allTags t) = "strtok(str, delim)") := by
  rw [strtok_eq, windows_iff_win_defined]
  unfold reentrantSpellings
  generalize defined P_OS_WIN (osTags t) = w
  generalize defined P_CC_MINGW (ccChain t) = m
  revert w m
  decide

/-- The amended C12 theorem at two builds: GCC on Linux gets a reentrant
spelling, and so does MSVC on Windows, where `P_CC_MINGW` is not set. -/
theorem strtok_reentrant_unless_mingw_witness :
    P_STRTOK (allTags { noTokens with __linux__ := true, __GNUC__ := some 4 }) ∈
      reentrantSpellings ∧
    P_STRTOK (allTags { noTokens with _WIN32 := true, _MSC_VER := true }) ∈
      reentrantSpellings :=
  ⟨(strtok_reentrant_unless_mingw
      { noTokens with __linux__ := true, __GNUC__ := some 4 }).1.2 (by decide),
   (strtok_reentrant_unless_mingw
      { noTokens with _WIN32 := true, _MSC_VER := true }).1.2 (by decide)⟩

/-! ## Export and no-return annotations -/

/-- `P_LIB_API` as a function of `_MSC_VER` alone. -/
theorem lib_api_eq (t : Tokens) :
    P_LIB_API (allTags t) = if t._MSC_VER then "__declspec(dllexport)" else "" := by
  unfold P_LIB_API
  rw [allTags_msvc]
  unfold ccChain
  generalize t._MSC_VER = c1
  generalize t.__GNUC__.isSome = c2
  generalize t.__SUNPRO_C = c3
  generalize t.__WATCOMC__ = c4
  generalize t.__INTEL_COMPILER = c5
  generalize t.__MINGW32__ = s1
  generalize t.__clang__ = s2
  revert c1 c2 c3 c4 c5 s1 s2
  decide

/-- `P_NO_RETURN` as a function of `_MSC_VER` and `__GNUC__` alone. -/
theorem no_return_eq (t : Tokens) :
    P_NO_RETURN (allTags t) =
      if t._MSC_VER then "__declspec(noreturn)"
      else if t.__GNUC__.isSome then "__attribute__((noreturn))"
      else "" := by
  unfold P_NO_RETURN
  rw [allTags_msvc, allTags_gnu]
  unfold ccChain
  generalize t._MSC_VER = c1
  generalize t.__GNUC__.isSome = c2
  generalize t.__SUNPRO_C = c3
  generalize t.__WATCOMC__ = c4
  generalize t.__INTEL_COMPILER = c5
  generalize t.__MINGW32__ = s1
  generalize t.__clang__ = s2
  revert c1 c2 c3 c4 c5 s1 s2
  decide

/-- C13: `P_NO_RETURN` is `__declspec(noreturn)` exactly when the resolved vendor
is MSVC, `__attribute__((noreturn))` exactly when it is GNU (whatever MinGW,
Clang or Intel subflag is set), and empty exactly when it is Sun, Watcom, Intel
or Unknown; with `_MSC_VER` and `__GNUC__` both defined the MSVC spelling is
chosen. -/
theorem no_return_selection (t : Tokens) :
    (P_NO_RETURN (allTags t) = "__declspec(noreturn)" ↔
      compilerVendors (ccChain t) = [.MSVC]) ∧
    (P_NO_RETURN (allTags t) = "__attribute__((noreturn))" ↔
      compilerVendors (ccChain t) = [.GNU]) ∧
    (P_NO_RETURN (allTags t) = "" ↔
      compilerVendors (ccChain t) ∈
        [[CompilerVendor.Sun], [CompilerVendor.Watcom], [CompilerVendor.Intel], []]) ∧
    (t._MSC_VER = true → t.__GNUC__.isSome = true →
      P_NO_RETURN (allTags t) = "__declspec(noreturn)") := by
  rw [no_return_eq]
  unfold ccChain
  generalize t._MSC_VER = c1
  generalize t.__GNUC__.isSome = c2
  generalize t.__SUNPRO_C = c3
  generalize t.__WATCOMC__ = c4
  generalize t.__INTEL_COMPILER = c5
  generalize t.__MINGW32__ = s1
  generalize t.__clang__ = s2
  revert c1 c2 c3 c4 c5 s1 s2
  decide

/-- The C13 theorem at a build that defines both `_MSC_VER` and `__GNUC__`: the
MSVC spelling is chosen. -/
theorem no_return_selection_witness :
    P_NO_RETURN (allTags { noTokens with _MSC_VER := true, __GNUC__ := some 4 }) =
      "__declspec(noreturn)" :=
  (no_return_selection { noTokens with _MSC_VER := true, __GNUC__ := some 4 }).2.2.2
    (by decide) (by decide)

/-- C14: `P_LIB_API` is `__declspec(dllexport)` if and only if the resolved vendor
is MSVC, that is if and only if `_MSC_VER` is defined, and is empty otherwise; it
does not depend on the OS: two token combinations that agree on `_MSC_VER` get
the same spelling, whatever their resolved OS families are. -/
theorem lib_api_selection (t : Tokens) :
    (P_LIB_API (allTags t) = "__declspec(dllexport)" ↔
      compilerVendors (ccChain t) = [.MSVC]) ∧
    (compilerVendors (ccChain t) = [.MSVC] ↔ t._MSC_VER = true) ∧
    (compilerVendors (ccChain t) ≠ [.MSVC] → P_LIB_API (allTags t) = "") ∧
    (∀ u : Tokens, u._MSC_VER = t._MSC_VER →
      P_LIB_API (allTags u) = P_LIB_API (allTags t)) := by
  refine ⟨?_, ?_, ?_, ?_⟩
  · rw [lib_api_eq]
    unfold ccChain
    generalize t._MSC_VER = c1
    generalize t.__GNUC__.isSome = c2
    generalize t.__SUNPRO_C = c3
    generalize t.__WATCOMC__ = c4
    generalize t.__INTEL_COMPILER = c5
    generalize t.__MINGW32__ = s1
    generalize t.__clang__ = s2
    revert c1 c2 c3 c4 c5 s1 s2
    decide
  · unfold ccChain
    generalize t._MSC_VER = c1
    generalize t.__GNUC__.isSome = c2
    generalize t.__SUNPRO_C = c3
    generalize t.__WATCOMC__ = c4
    generalize t.__INTEL_COMPILER = c5
    generalize t.__MINGW32__ = s1
    generalize t.__clang__ = s2
    revert c1 c2 c3 c4 c5 s1 s2
    decide
  · rw [lib_api_eq]
    unfold ccChain
    generalize t._MSC_VER = c1
    generalize t.__GNUC__.isSome = c2
    generalize t.__SUNPRO_C = c3
    generalize t.__WATCOMC__ = c4
    generalize t.__INTEL_COMPILER = c5
    generalize t.__MINGW32__ = s1
    generalize t.__clang__ = s2
    revert c1 c2 c3 c4 c5 s1 s2
    decide
  · intro u hu
    rw [lib_api_eq, lib_api_eq, hu]

/-- The C14 theorem at two builds with `_MSC_VER` defined, one resolving to
Windows and one to Linux: the export spelling is the same. -/
theorem lib_api_selection_witness :
    P_LIB_API (allTags { noTokens with _MSC_VER := true, __linux__ := true }) =
      P_LIB_API (allTags { noTokens with _MSC_VER := true, _WIN32 := true }) :=
  (lib_api_selection { noTokens with _MSC_VER := true, _WIN32 := true }).2.2.2
    { noTokens with _MSC_VER := true, __linux__ := true } rfl

/-! ## Unknown inputs -/

/-- With no OS detection condition holding, the OS blocks define nothing. -/
theorem osMacros_of_unsupported (t : Tokens) (h : osSupported t = false) :
    osMacros t = [] ∧ osTags t = [] := by
  rw [osMacros_eq, osTags_eq]
  unfold osSupported at h
  revert h
  generalize darwinCond t = c1
  generalize t.__LP64__ = lp
  generalize win64Cond t = c2
  generalize winCond t = c3
  generalize linuxCond t = c4
  generalize solarisCond t = c5
  generalize qnx6Cond t = c6
  generalize qnxCond t = c7
  revert c1 lp c2 c3 c4 c5 c6 c7
  decide

/-- With none of the five compiler tokens defined, the compiler chain defines
nothing. -/
theorem ccChain_of_unsupported (t : Tokens) (h : ccSupported t = false) :
    ccChain t = [] ∧ t.__GNUC__.isSome = false := by
  unfold ccSupported at h
  unfold ccChain
  revert h
  generalize t._MSC_VER = c1
  generalize t.__GNUC__.isSome = c2
  generalize t.__SUNPRO_C = c3
  generalize t.__WATCOMC__ = c4
  generalize t.__INTEL_COMPILER = c5
  generalize t.__MINGW32__ = s1
  generalize t.__clang__ = s2
  revert c1 c2 c3 c4 c5 s1 s2
  decide

/-- C15: when no OS detection condition holds and none of the compiler tokens is
defined, no OS, vendor or subflag tag is defined (family and vendor are both
Unknown), `P_LIB_API`, `P_NO_RETURN` and `P_GNUC_WARN_UNUSED_RESULT` are empty
and `P_STRTOK` is its last branch, `strtok_r`; and the header, entered through
`plib.h` for the first time, is processed to the end with exactly these values
and no `#error`. -/
theorem unknown_degrades_to_noop (t : Tokens)
    (hos : osSupported t = false) (hcc : ccSupported t = false) :
    allTags t = [] ∧
    osFamilies (osTags t) = [] ∧ compilerVendors (ccChain t) = [] ∧
    P_LIB_API (allTags t) = "" ∧ P_NO_RETURN (allTags t) = "" ∧
    P_GNUC_WARN_UNUSED_RESULT t = "" ∧
    P_STRTOK (allTags t) = "strtok_r(str, delim, buf)" ∧
    ((t.__PLIB_H_INSIDE__ || t.PLIB_COMPILATION) = true → t.__PMACROS_H__ = false →
      pmacros t = Except.ok (some ⟨[], "", "", "", "strtok_r(str, delim, buf)",
        P_BEGIN_DECLS t, P_END_DECLS t⟩)) := by
  obtain ⟨hm, ht⟩ := osMacros_of_unsupported t hos
  obtain ⟨hc, hg⟩ := ccChain_of_unsupported t hcc
  have hall : allTags t = [] := by rw [allTags, hm, hc]; rfl
  have hw : P_GNUC_WARN_UNUSED_RESULT t = "" := by
    rw [warn_unused_empty_iff, warnUnusedCond_of_undefined t hg]
    decide
  refine ⟨hall, ?_, ?_, ?_, ?_, hw, ?_, ?_⟩
  · rw [ht]; decide
  · rw [hc]; decide
  · rw [hall]; decide
  · rw [hall]; decide
  · rw [hall]; decide
  · intro hguard hfirst
    have hguard2 : (!t.__PLIB_H_INSIDE__ && !t.PLIB_COMPILATION) = false := by
      revert hguard
      generalize t.__PLIB_H_INSIDE__ = a
      generalize t.PLIB_COMPILATION = b
      revert a b
      decide
    have hall2 : osMacros t ++ ccChain t = [] := hall
    unfold pmacros
    simp only [hguard2, hfirst, hall2, hw, Bool.false_eq_true, if_false]
    rfl

/-- The C15 theorem at the header included through `plib.h` with no identity
token defined at all. -/
theorem unknown_degrades_to_noop_witness :
    (osSupported { noTokens with __PLIB_H_INSIDE__ := true } = false ∧
     ccSupported { noTokens with __PLIB_H_INSIDE__ := true } = false) ∧
    pmacros { noTokens with __PLIB_H_INSIDE__ := true } =
      Except.ok (some ⟨[], "", "", "", "strtok_r(str, delim, buf)",
        P_BEGIN_DECLS { noTokens with __PLIB_H_INSIDE__ := true },
        P_END_DECLS { noTokens with __PLIB_H_INSIDE__ := true }⟩) :=
  ⟨⟨by decide, by decide⟩,
   (unknown_degrades_to_noop { noTokens with __PLIB_H_INSIDE__ := true }
      (by decide) (by decide)).2.2.2.2.2.2.2 (by decide) (by decide)⟩

/-! ## Integer and pointer casts -/

/-- C16: for every `int` value `i`, `P_POINTER_TO_INT(P_INT_TO_POINTER(i))` is
`i` under each of the data models ILP32, LP64 and LLP64 (`int` of 32 bits,
`long` and pointers of 32 or 64 bits), the casts being sign extension and
truncation modulo `2^w` through the intermediate `long`. -/
theorem int_pointer_roundtrip (dm : DataModel) (i : Int) (hi : isInt i = true) :
    P_POINTER_TO_INT dm (P_INT_TO_POINTER dm i) = i := by
  have h : -(2 : Int) ^ 31 ≤ i ∧ i < (2 : Int) ^ 31 := by
    simpa [isInt] using hi
  obtain ⟨h1, h2⟩ := h
  norm_num at h1 h2
  cases dm <;>
    simp only [P_POINTER_TO_INT, P_INT_TO_POINTER, toSigned, toPointer, intBits,
      DataModel.longBits, DataModel.ptrBits] <;>
    norm_num <;> omega

/-- The C16 theorem at `i = -1` under LP64: the handle is the all-ones 64-bit
pattern and the way back gives `-1`. -/
theorem int_pointer_roundtrip_witness :
    isInt (-1) = true ∧
    P_INT_TO_POINTER .LP64 (-1) = 18446744073709551615 ∧
    P_POINTER_TO_INT .LP64 (P_INT_TO_POINTER .LP64 (-1)) = -1 :=
  ⟨by decide, by decide, int_pointer_roundtrip .LP64 (-1) (by decide)⟩

/-! ## MinGW and Clang as refinements -/

/-- The resolved vendors as a function of the five compiler tokens alone. -/
theorem compilerVendors_eq (t : Tokens) :
    compilerVendors (ccChain t) =
      if t._MSC_VER then [.MSVC]
      else if t.__GNUC__.isSome then [.GNU]
      else if t.__SUNPRO_C then [.Sun]
      else if t.__WATCOMC__ then [.Watcom]
      else if t.__INTEL_COMPILER then [.Intel]
      else [] := by
  unfold ccChain
  generalize t._MSC_VER = c1
  generalize t.__GNUC__.isSome = c2
  generalize t.__SUNPRO_C = c3
  generalize t.__WATCOMC__ = c4
  generalize t.__INTEL_COMPILER = c5
  generalize t.__MINGW32__ = s1
  generalize t.__clang__ = s2
  revert c1 c2 c3 c4 c5 s1 s2
  decide

/-- C17: two token combinations that differ only in whether `__MINGW32__` and
`__clang__` are defined resolve the same OS family and the same compiler vendor
and get the same spellings of `P_LIB_API`, `P_NO_RETURN` and
`P_GNUC_WARN_UNUSED_RESULT`. -/
theorem mingw_clang_change_no_capability (t : Tokens) (mingw clang : Bool) :
    osFamilies (osTags { t with __MINGW32__ := mingw, __clang__ := clang }) =
      osFamilies (osTags t) ∧
    compilerVendors (ccChain { t with __MINGW32__ := mingw, __clang__ := clang }) =
      compilerVendors (ccChain t) ∧
    P_LIB_API (allTags { t with __MINGW32__ := mingw, __clang__ := clang }) =
      P_LIB_API (allTags t) ∧
    P_NO_RETURN (allTags { t with __MINGW32__ := mingw, __clang__ := clang }) =
      P_NO_RETURN (allTags t) ∧
    P_GNUC_WARN_UNUSED_RESULT { t with __MINGW32__ := mingw, __clang__ := clang } =
      P_GNUC_WARN_UNUSED_RESULT t := by
  refine ⟨rfl, ?_, ?_, ?_, rfl⟩
  · rw [compilerVendors_eq, compilerVendors_eq]
  · rw [lib_api_eq, lib_api_eq]
  · rw [no_return_eq, no_return_eq]

/-! ## The direct-inclusion check -/

/-- C18, as stated, fails: an ordinary Linux build with GCC (`__linux__`,
`__GNUC__`) that reaches the header with neither `__PLIB_H_INSIDE__` nor
`PLIB_COMPILATION` defined stops at the `#error` of line 29. -/
theorem direct_inclusion_stops_build :
    pmacros { noTokens with __linux__ := true, __GNUC__ := some 4 } =
      Except.error
        "Header files shouldn't be included directly, consider using <plib.h> instead." := rfl

/-- C18, amended: the only build-stopping `#error` is the direct-inclusion check.
It is reached exactly when neither `__PLIB_H_INSIDE__` nor `PLIB_COMPILATION`
is defined; with one of them defined processing completes, and on the first
inclusion (`__PMACROS_H__` not yet defined) it yields a value for every tag and
primitive: the tags of the OS and compiler blocks and the spelling selected for
each primitive. -/
theorem error_only_on_direct_inclusion (t : Tokens) :
    ((∃ msg, pmacros t = Except.error msg) ↔
      (t.__PLIB_H_INSIDE__ = false ∧ t.PLIB_COMPILATION = false)) ∧
    ((t.__PLIB_H_INSIDE__ || t.PLIB_COMPILATION) = true →
      (t.__PMACROS_H__ = true → pmacros t = Except.ok none) ∧
      (t.__PMACROS_H__ = false →
        pmacros t = Except.ok (some ⟨allTags t, P_GNUC_WARN_UNUSED_RESULT t,
          P_LIB_API (allTags t), P_NO_RETURN (allTags t), P_STRTOK (allTags t),
          P_BEGIN_DECLS t, P_END_DECLS t⟩))) := by
  unfold pmacros allTags
  cases h1 : t.__PLIB_H_INSIDE__ <;> cases h2 : t.PLIB_COMPILATION <;>
    cases h3 : t.__PMACROS_H__ <;> simp

/-- The amended C18 theorem at a Linux build with GCC that enters the header
through `plib.h`: processing completes with a value for every primitive. -/
theorem error_only_on_direct_inclusion_witness :
    pmacros { noTokens with __PLIB_H_INSIDE__ := true, __linux__ := true, __GNUC__ := some 4 } =
      Except.ok (some ⟨[P_OS_LINUX, P_CC_GNU], "__attribute__((warn_unused_result))", "",
        "__attribute__((noreturn))", "strtok_r(str, delim, buf)", "", ""⟩) :=
  ((error_only_on_direct_inclusion
    { noTokens with __PLIB_H_INSIDE__ := true, __linux__ := true, __GNUC__ := some 4 }).2
    (by decide)).2 (by decide)

/-! ## Darwin detection and the compiler tokens -/

/-- The first-match rule over the rules after the Darwin one, branch by branch. -/
theorem firstMatch_after_darwin (t : Tokens) :
    firstMatch osRules.tail t =
      if win64Cond t then some .Windows
      else if winCond t then some .Windows
      else if linuxCond t then some .Linux
      else if solarisCond t then some .Solaris
      else if qnx6Cond t then some .QNX6
      else if qnxCond t then some .QNX
      else none := by
  unfold firstMatch osRules
  simp only [List.tail, List.find?]
  generalize win64Cond t = c2
  generalize winCond t = c3
  generalize linuxCond t = c4
  generalize solarisCond t = c5
  generalize qnx6Cond t = c6
  generalize qnxCond t = c7
  revert c2 c3 c4 c5 c6 c7
  decide

/-- C19: the resolved family is Darwin/BSD4 if and only if `__APPLE__` is defined
together with at least one of `__GNUC__`, `__xlC__`, `__xlc__`.  With `__APPLE__`
defined and none of the three, the Darwin branch is skipped: no Darwin tag is
defined, the family is the first match among the Windows, Linux, Solaris and QNX
conditions, and it is Unknown when none of them holds. -/
theorem darwin_needs_compiler_token (t : Tokens) :
    (osFamilies (osTags t) = [.Darwin] ↔
      t.__APPLE__ = true ∧
        (t.__GNUC__.isSome = true ∨ t.__xlC__ = true ∨ t.__xlc__ = true)) ∧
    (t.__APPLE__ = true → t.__GNUC__.isSome = false → t.__xlC__ = false →
      t.__xlc__ = false →
      defined P_OS_DARWIN (osMacros t) = false ∧
      osFamilies (osTags t) = (firstMatch osRules.tail t).toList ∧
      (win64Cond t = false → winCond t = false → linuxCond t = false →
        solarisCond t = false → qnx6Cond t = false → qnxCond t = false →
        osFamilies (osTags t) = [])) := by
  rw [osTags_eq, osMacros_eq, firstMatch_after_darwin]
  unfold darwinCond
  generalize t.__APPLE__ = a
  generalize t.__GNUC__.isSome = g
  generalize t.__xlC__ = x1
  generalize t.__xlc__ = x2
  generalize t.__LP64__ = lp
  generalize win64Cond t = c2
  generalize winCond t = c3
  generalize linuxCond t = c4
  generalize solarisCond t = c5
  generalize qnx6Cond t = c6
  generalize qnxCond t = c7
  refine ⟨?_, ?_⟩
  · revert a g x1 x2 lp c2 c3 c4 c5 c6 c7
    decide
  · intro ha hg h1 h2
    subst ha hg h1 h2
    refine ⟨?_, ?_, ?_⟩ <;>
      (revert lp c2 c3 c4 c5 c6 c7; decide)

/-- The C19 theorem at `__APPLE__` with `__linux__` and no GNU or XL compiler
token: the Darwin branch is skipped and the family is Linux. -/
theorem darwin_needs_compiler_token_witness :
    defined P_OS_DARWIN (osMacros { noTokens with __APPLE__ := true, __linux__ := true }) =
      false ∧
    osFamilies (osTags { noTokens with __APPLE__ := true, __linux__ := true }) =
      (firstMatch osRules.tail { noTokens with __APPLE__ := true, __linux__ := true }).toList :=
  ⟨((darwin_needs_compiler_token { noTokens with __APPLE__ := true, __linux__ := true }).2
      (by decide) (by decide) (by decide) (by decide)).1,
   ((darwin_needs_compiler_token { noTokens with __APPLE__ := true, __linux__ := true }).2
      (by decide) (by decide) (by decide) (by decide)).2.1⟩

/-! ## Unused-result and no-return annotations together -/

/-- C20: whenever `P_GNUC_WARN_UNUSED_RESULT` is the active attribute, the
resolved vendor is MSVC or GNU and `P_NO_RETURN` is not empty.  The converse
fails: a GNU compiler of version 2 has a non-empty `P_NO_RETURN` and an empty
`P_GNUC_WARN_UNUSED_RESULT`. -/
theorem warn_unused_implies_no_return (t : Tokens) :
    (P_GNUC_WARN_UNUSED_RESULT t = "__attribute__((warn_unused_result))" →
      (compilerVendors (ccChain t) = [.MSVC] ∨ compilerVendors (ccChain t) = [.GNU]) ∧
      P_NO_RETURN (allTags t) ≠ "") ∧
    (P_NO_RETURN (allTags { noTokens with __GNUC__ := some 2 }) ≠ "" ∧
      P_GNUC_WARN_UNUSED_RESULT { noTokens with __GNUC__ := some 2 } = "") := by
  refine ⟨fun h => ?_, by decide⟩
  have hg : t.__GNUC__.isSome = true := by
    cases hg : t.__GNUC__.isSome with
    | true => rfl
    | false =>
      have hw := warnUnusedCond_of_undefined t hg
      rw [(warn_unused_active_iff t).1 h] at hw
      exact absurd hw (by decide)
  rw [compilerVendors_eq, no_return_eq, hg]
  generalize t._MSC_VER = c1
  generalize t.__SUNPRO_C = c3
  generalize t.__WATCOMC__ = c4
  generalize t.__INTEL_COMPILER = c5
  revert c1 c3 c4 c5
  decide

/-- The C20 theorem at GCC 4.0: the unused-result attribute is active, so the
vendor is MSVC or GNU and `P_NO_RETURN` is not empty. -/
theorem warn_unused_implies_no_return_witness :
    (compilerVendors (ccChain { noTokens with __GNUC__ := some 4 }) = [.MSVC] ∨
     compilerVendors (ccChain { noTokens with __GNUC__ := some 4 }) = [.GNU]) ∧
    P_NO_RETURN (allTags { noTokens with __GNUC__ := some 4 }) ≠ "" :=
  (warn_unused_implies_no_return { noTokens with __GNUC__ := some 4 }).1 (by decide)

end PMacros
